import Mathlib

set_option linter.unusedVariables false

/-!
Shallow embedding of libzdb's `src/db/mysql/MysqlResultSet.c`: a buffered,
truncation-aware result-set cursor over a prepared-statement engine.

The MySQL client library is modelled as an explicit engine state (`Stmt`)
holding the remaining rows, the current row, failure-injection flags for the
calls that can fail, and a trace of engine invocations (`EEvent`), so that
claims about call ordering ("rebind before fetch", "targeted single-column
re-fetch", "no engine call once stopped") are expressible.  Buffers are byte
lists whose length is the allocation size; out-of-bounds accesses that are
undefined behaviour in the C are modelled as an explicit `memError`.
-/

/-- Return codes of `mysql_stmt_fetch` used by the code. -/
def MYSQL_OK : Nat := 0

/-- `MYSQL_NO_DATA`: no more rows. -/
def MYSQL_NO_DATA : Nat := 100

/-- `MYSQL_DATA_TRUNCATED`: a row was fetched but at least one column did not fit. -/
def MYSQL_DATA_TRUNCATED : Nat := 101

/-- Default column buffer capacity used by `MysqlResultSet_new` (libzdb's `STRLEN`). -/
def STRLEN : Nat := 256

/-- One engine invocation, for call-trace reasoning. -/
inductive EEvent where
  | bindResult
  | storeResult
  | fetch
  | fetchColumn (i : Nat)
  | reset
  | freeResult
  | close
  deriving Repr, DecidableEq

/-- Errors: `SQLException` thrown via libzdb's `THROW`, the `IndexError` of the
spec's accessor contract, and `memError` marking an access that is undefined
behaviour in the C source (out-of-bounds pointer arithmetic). -/
inductive SqlErr where
  | indexError
  | sqlException (msg : String)
  | memError
  deriving Repr, DecidableEq

/-- A database row: one cell per column, `none` = SQL NULL, otherwise the value's bytes. -/
abbrev Row := List (Option (List Nat))

/-- The engine (`MYSQL_STMT`) model: pending rows, the row most recently fetched
(needed by `mysql_stmt_fetch_column`), static query metadata, failure-injection
flags for the fallible engine calls, and the trace of engine invocations. -/
structure Stmt where
  rows : List Row
  current : Option Row := none
  fieldCount : Nat
  metaAvailable : Bool := true
  fieldNames : List String := []
  bindResultFails : Bool := false
  fetchColumnFails : Bool := false
  storeResultFails : Bool := false
  events : List EEvent := []
  deriving Repr, DecidableEq

/-- `struct column_t`: null flag, field metadata (its name), the true length of
the most recently fetched value, and the owned buffer (length = allocation). -/
structure ColumnT where
  is_null : Bool := false
  fieldName : String := ""
  real_length : Nat := 0
  buffer : List Nat := []
  deriving Repr, DecidableEq, Inhabited

/-- The fields of `MYSQL_BIND` the code reads or writes (besides the pointers
that alias `column_t`, which the model represents directly): the capacity
registered with the engine for the column. -/
structure BindT where
  buffer_length : Nat := 0
  deriving Repr, DecidableEq, Inhabited

/-- `struct T` (`ResultSetDelegate_T`): the cursor state. -/
structure MysqlRS where
  stop : Bool
  keep : Bool
  maxRows : Nat
  lastError : Nat
  needRebind : Bool
  currentRow : Nat
  columnCount : Nat
  meta : Bool
  bind : List BindT
  columns : List ColumnT
  stmt : Stmt
  deriving Repr, DecidableEq

/-- Write `data` over the front of buffer `buf`, keeping the rest of the
allocation (model of `memcpy` into a larger buffer). -/
def writeInto (buf : List Nat) (data : List Nat) : List Nat :=
  data ++ buf.drop data.length

/-- `RESIZE`: reallocate a buffer to `n` bytes, preserving its old contents. -/
def resize (buf : List Nat) (n : Nat) : List Nat :=
  (buf ++ List.replicate n 0).take n

/-- Effect of a row fetch on one column: the engine sets the null flag, reports
the value's true length through the bound length pointer, and copies at most
`buffer_length` bytes into the bound buffer. -/
def fetchCell (b : BindT) (c : ColumnT) (cell : Option (List Nat)) : ColumnT :=
  match cell with
  | none => { c with is_null := true, real_length := 0 }
  | some v => { c with
      is_null := false
      real_length := v.length
      buffer := writeInto c.buffer (v.take b.buffer_length) }

/-- Whether fetching `row` through `bind` truncates at least one column. -/
def rowTruncated (bind : List BindT) (row : Row) : Bool :=
  (List.range bind.length).any fun i =>
    match row.getD i none with
    | none => false
    | some v => decide ((bind.getD i default).buffer_length < v.length)

/-- `mysql_stmt_fetch`: fetch the next row through the bind table into the
columns; returns the new engine state, the new columns, and the return code. -/
def mysql_stmt_fetch (s : Stmt) (bind : List BindT) (cols : List ColumnT) :
    Stmt × List ColumnT × Nat :=
  let s1 := { s with events := s.events ++ [EEvent.fetch] }
  match s.rows with
  | [] => ({ s1 with current := none }, cols, MYSQL_NO_DATA)
  | row :: rest =>
    ({ s1 with rows := rest, current := some row },
     (List.range cols.length).map (fun i =>
        fetchCell (bind.getD i default) (cols.getD i default) (row.getD i none)),
     if rowTruncated bind row = true then MYSQL_DATA_TRUNCATED else MYSQL_OK)

/-- `mysql_stmt_fetch_column`: targeted re-fetch of column `i` of the current
row into the given buffer with capacity `b.buffer_length`; returns the new
engine state, the new buffer contents, and the return code. -/
def mysql_stmt_fetch_column (s : Stmt) (b : BindT) (buf : List Nat) (i : Nat) :
    Stmt × List Nat × Nat :=
  let s1 := { s with events := s.events ++ [EEvent.fetchColumn i] }
  if s.fetchColumnFails = true then (s1, buf, 1)
  else
    match s.current with
    | none => (s1, buf, 1)
    | some row =>
      match row.getD i none with
      | none => (s1, buf, 0)
      | some v => (s1, writeInto buf (v.take b.buffer_length), 0)

/-- `mysql_stmt_bind_result`: register the bind table with the engine. -/
def mysql_stmt_bind_result (s : Stmt) (bind : List BindT) : Stmt × Nat :=
  ({ s with events := s.events ++ [EEvent.bindResult] },
   if s.bindResultFails = true then 1 else 0)

/-- `mysql_stmt_store_result`: materialize the result set client side. -/
def mysql_stmt_store_result (s : Stmt) : Stmt × Nat :=
  ({ s with events := s.events ++ [EEvent.storeResult] },
   if s.storeResultFails = true then 1 else 0)

/-- `mysql_stmt_reset`: discard any remaining buffered rows for the statement. -/
def mysql_stmt_reset (s : Stmt) : Stmt :=
  { s with rows := [], current := none, events := s.events ++ [EEvent.reset] }

/-- `mysql_stmt_free_result`: release the pending result. -/
def mysql_stmt_free_result (s : Stmt) : Stmt :=
  { s with rows := [], current := none, events := s.events ++ [EEvent.freeResult] }

/-- `mysql_stmt_close`: close the statement handle. -/
def mysql_stmt_close (s : Stmt) : Stmt :=
  { s with events := s.events ++ [EEvent.close] }

/-- Modelled from the spec: `checkAndSetColumnIndex` is declared in
`ResultSetDelegate.h`, which is not part of the sources under review (only its
callers are).  Per the spec, accessors "take a 1-based column index and fail
with an `IndexError` (bounds: `1 <= index <= columnCount`) if out of range,
converted internally to a 0-based descriptor lookup". -/
def checkAndSetColumnIndex (columnIndex : Int) (columnCount : Nat) : Except SqlErr Nat :=
  if 1 ≤ columnIndex ∧ columnIndex ≤ (columnCount : Int) then
    .ok (columnIndex - 1).toNat
  else
    .error .indexError

/-- `_ensureCapacity`: if the value of column `i` in the current row was longer
than the registered buffer capacity, grow the buffer to `real_length + 1`
bytes, register the new capacity in the bind entry, re-fetch just this column,
and mark the bind table for re-registration; a failing re-fetch throws. -/
def _ensureCapacity (R : MysqlRS) (i : Nat) : Except SqlErr MysqlRS :=
  let c := R.columns.getD i default
  let b := R.bind.getD i default
  if b.buffer_length < c.real_length then
    let nb : BindT := { buffer_length := c.real_length }
    let fc := mysql_stmt_fetch_column R.stmt nb (resize c.buffer (c.real_length + 1)) i
    if fc.2.2 ≠ 0 then .error (.sqlException "mysql_stmt_fetch_column")
    else .ok { R with
      stmt := fc.1
      columns := R.columns.set i { c with buffer := fc.2.1 }
      bind := R.bind.set i nb
      lastError := fc.2.2
      needRebind := true }
  else .ok R

/-- `MysqlResultSet_new`: build the cursor.  Zero columns or missing metadata
yields a terminal cursor; otherwise allocate one `STRLEN + 1` byte buffer per
column, register `STRLEN` as its capacity, bulk-bind (failure makes the cursor
terminal but still returns it), and ask the engine to store the result
client side (failure is non-fatal). -/
def MysqlResultSet_new (stmt : Stmt) (maxRows : Nat) (keep : Bool) : MysqlRS :=
  let columnCount := stmt.fieldCount
  if columnCount = 0 ∨ stmt.metaAvailable = false then
    { stop := true, keep := keep, maxRows := maxRows, lastError := 0,
      needRebind := false, currentRow := 0, columnCount := columnCount,
      meta := false, bind := [], columns := [], stmt := stmt }
  else
    let bind := List.replicate columnCount ({ buffer_length := STRLEN } : BindT)
    let columns := (List.range columnCount).map (fun i =>
      ({ is_null := false, fieldName := stmt.fieldNames.getD i "",
         real_length := 0, buffer := List.replicate (STRLEN + 1) 0 } : ColumnT))
    let b1 := mysql_stmt_bind_result stmt bind
    let b2 := mysql_stmt_store_result b1.1
    { stop := b1.2 != 0, keep := keep, maxRows := maxRows, lastError := b2.2,
      needRebind := false, currentRow := 0, columnCount := columnCount,
      meta := true, bind := bind, columns := columns, stmt := b2.1 }

/-- The buffer-release loop of `MysqlResultSet_free`: frees
`columns[n-1].buffer, ..., columns[0].buffer`; `none` marks an access to a
column slot outside the allocation (undefined behaviour in the C). -/
def freeColumnBuffers (cols : List ColumnT) : Nat → Option Unit
  | 0 => some ()
  | n + 1 =>
    match cols[n]? with
    | some _ => freeColumnBuffers cols n
    | none => none

/-- `MysqlResultSet_free`: release every column buffer (`columnCount` many),
free the engine-side result, and close the statement handle unless the caller
asked to keep it. -/
def MysqlResultSet_free (R : MysqlRS) : Except SqlErr Stmt :=
  match freeColumnBuffers R.columns R.columnCount with
  | none => .error .memError
  | some _ =>
    let s1 := mysql_stmt_free_result R.stmt
    let s2 := if R.keep = false then mysql_stmt_close s1 else s1
    .ok s2

/-- `MysqlResultSet_getColumnCount`. -/
def MysqlResultSet_getColumnCount (R : MysqlRS) : Nat :=
  R.columnCount

/-- `MysqlResultSet_getColumnName`: note the source's own bounds check
(`columnIndex > R->columnCount` on the already decremented index) and its
`NULL` return instead of an exception. -/
def MysqlResultSet_getColumnName (R : MysqlRS) (columnIndex : Int) :
    Except SqlErr (Option String) :=
  let ci := columnIndex - 1
  if R.columnCount = 0 ∨ ci < 0 ∨ (R.columnCount : Int) < ci then .ok none
  else
    match R.columns[ci.toNat]? with
    | some c => .ok (some c.fieldName)
    | none => .error .memError

/-- `MysqlResultSet_getColumnSize`. -/
def MysqlResultSet_getColumnSize (R : MysqlRS) (columnIndex : Int) :
    Except SqlErr Nat :=
  match checkAndSetColumnIndex columnIndex R.columnCount with
  | .error e => .error e
  | .ok i =>
    match R.columns[i]? with
    | none => .error .memError
    | some c => .ok (if c.is_null = true then 0 else c.real_length)

/-- The fetch step at the end of `MysqlResultSet_next`: invoke
`mysql_stmt_fetch`, throw on an engine-level error (return code 1), and report
a row on `MYSQL_OK` or `MYSQL_DATA_TRUNCATED`. -/
def doFetch (R : MysqlRS) : Except SqlErr (MysqlRS × Bool) :=
  let t := mysql_stmt_fetch R.stmt R.bind R.columns
  let R1 := { R with stmt := t.1, columns := t.2.1, lastError := t.2.2 }
  if t.2.2 = 1 then .error (.sqlException "mysql_stmt_fetch")
  else .ok (R1, decide (t.2.2 = MYSQL_OK) || decide (t.2.2 = MYSQL_DATA_TRUNCATED))

/-- `MysqlResultSet_next`: the row-advance state machine.  A stopped cursor
reports no row; `R->maxRows && (R->currentRow++ >= R->maxRows)` checks the row
cap before fetching (post-incrementing `currentRow` whenever `maxRows` is
nonzero) and on reaching it stops the cursor and resets the statement; a
pending rebind re-registers the bind table (throwing on failure) before the
fetch. -/
def MysqlResultSet_next (R : MysqlRS) : Except SqlErr (MysqlRS × Bool) :=
  if R.stop = true then .ok (R, false)
  else
    let R1 := if R.maxRows ≠ 0 then { R with currentRow := R.currentRow + 1 } else R
    if R.maxRows ≠ 0 ∧ R.maxRows ≤ R.currentRow then
      .ok ({ R1 with stop := true, stmt := mysql_stmt_reset R1.stmt }, false)
    else if R.needRebind = true then
      let br := mysql_stmt_bind_result R1.stmt R1.bind
      if br.2 ≠ 0 then .error (.sqlException "mysql_stmt_bind_result")
      else doFetch { R1 with stmt := br.1, lastError := br.2, needRebind := false }
    else doFetch R1

/-- `MysqlResultSet_isnull`. -/
def MysqlResultSet_isnull (R : MysqlRS) (columnIndex : Int) : Except SqlErr Bool :=
  match checkAndSetColumnIndex columnIndex R.columnCount with
  | .error e => .error e
  | .ok i =>
    match R.columns[i]? with
    | none => .error .memError
    | some c => .ok c.is_null

/-- `MysqlResultSet_getString`: null column yields `none`; otherwise resolve
truncation, write the terminator byte at offset `real_length` (a `memError` if
that offset is outside the allocation), and return the value bytes the caller
reads through the returned pointer. -/
def MysqlResultSet_getString (R : MysqlRS) (columnIndex : Int) :
    Except SqlErr (MysqlRS × Option (List Nat)) :=
  match checkAndSetColumnIndex columnIndex R.columnCount with
  | .error e => .error e
  | .ok i =>
    match R.columns[i]? with
    | none => .error .memError
    | some c =>
      if c.is_null = true then .ok (R, none)
      else
        match _ensureCapacity R i with
        | .error e => .error e
        | .ok R1 =>
          match R1.columns[i]? with
          | none => .error .memError
          | some c1 =>
            if c1.real_length < c1.buffer.length then
              let buf := c1.buffer.set c1.real_length 0
              .ok ({ R1 with columns := R1.columns.set i { c1 with buffer := buf } },
                   some (buf.take c1.real_length))
            else .error .memError

/-- `MysqlResultSet_getBlob`: null column yields `none`; otherwise resolve
truncation and return the value bytes together with `*size = real_length`. -/
def MysqlResultSet_getBlob (R : MysqlRS) (columnIndex : Int) :
    Except SqlErr (MysqlRS × Option (List Nat × Nat)) :=
  match checkAndSetColumnIndex columnIndex R.columnCount with
  | .error e => .error e
  | .ok i =>
    match R.columns[i]? with
    | none => .error .memError
    | some c =>
      if c.is_null = true then .ok (R, none)
      else
        match _ensureCapacity R i with
        | .error e => .error e
        | .ok R1 =>
          match R1.columns[i]? with
          | none => .error .memError
          | some c1 => .ok (R1, some (c1.buffer.take c1.real_length, c1.real_length))

/-- The cursor state after one advance (state component of `MysqlResultSet_next`;
an exception leaves the state unchanged for iteration purposes). -/
def iterNext (R : MysqlRS) : MysqlRS :=
  match MysqlResultSet_next R with
  | .ok p => p.1
  | .error _ => R

/-- The cursor state after `k` advances. -/
def stateAfter (R : MysqlRS) : Nat → MysqlRS
  | 0 => R
  | k + 1 => iterNext (stateAfter R k)

/-! ### Helper lemmas about buffers -/

lemma length_writeInto (buf data : List Nat) (h : data.length ≤ buf.length) :
    (writeInto buf data).length = buf.length := by
  simp [writeInto]
  omega

lemma length_resize (buf : List Nat) (n : Nat) : (resize buf n).length = n := by
  simp [resize]

lemma take_set_append (v t : List Nat) (a : Nat) :
    ((v ++ t).set v.length a).take v.length = v := by
  rw [List.set_append, if_neg (lt_irrefl v.length), Nat.sub_self]
  exact List.take_left v (t.set 0 a)

lemma freeColumnBuffers_of_le (cols : List ColumnT) :
    ∀ n, n ≤ cols.length → freeColumnBuffers cols n = some () := by
  intro n
  induction n with
  | zero => intro _; rfl
  | succ k ih =>
    intro h
    have hk : k < cols.length := Nat.lt_of_lt_of_le (Nat.lt_succ_self k) h
    rw [freeColumnBuffers, List.getElem?_eq_getElem hk]
    exact ih (Nat.le_of_lt hk)

/-! ### Concrete scenarios used by the witnesses, counterexamples and bug
evaluations below -/

/-- A two-column statement for exercising the accessor index checks. -/
def c4Stmt : Stmt := { rows := [], fieldCount := 2, fieldNames := ["a", "b"] }

/-- Cursor over `c4Stmt`. -/
def c4RS : MysqlRS := MysqlResultSet_new c4Stmt 0 false

/-- A one-row, one-column statement. -/
def c5Stmt : Stmt := { rows := [[some [1]]], fieldCount := 1, fieldNames := ["a"] }

/-- Cursor over `c5Stmt`, no row cap. -/
def c5R0 : MysqlRS := MysqlResultSet_new c5Stmt 0 false

/-- A statement whose metadata retrieval fails although it has one column. -/
def c9Stmt : Stmt := { rows := [], fieldCount := 1, metaAvailable := false }

/-- A healthy one-column statement for the teardown good path. -/
def c9GoodStmt : Stmt := { rows := [], fieldCount := 1, fieldNames := ["a"] }

/-! ### C4 -/

/-- C4: the claim says every accessor taking a 1-based column index
(`columnName`, `columnSize`, `isNull`, `getString`, `getBlob`) raises an
`IndexError` outside `[1, columnCount]` — in particular at index `0` and
`columnCount + 1`.  The `checkAndSetColumnIndex`-based accessors comply, but
`MysqlResultSet_getColumnName` does not: on a two-column cursor, index `3`
(= `columnCount + 1`) slips past its own bounds check (`columnIndex >
R->columnCount` on a decremented index) and reads descriptor slot
`columnCount`, which is outside the allocation (`memError` marks the
out-of-bounds access), and index `0` yields a `NULL` return, not an
`IndexError`. -/
theorem C4_index_check_bug :
    MysqlResultSet_getColumnName c4RS 3 = .error .memError
    ∧ MysqlResultSet_getColumnName c4RS 0 = .ok none
    ∧ MysqlResultSet_getColumnName c4RS 1 = .ok (some "a")
    ∧ MysqlResultSet_getColumnName c4RS 2 = .ok (some "b")
    ∧ MysqlResultSet_isnull c4RS 0 = .error .indexError
    ∧ MysqlResultSet_isnull c4RS 3 = .error .indexError
    ∧ MysqlResultSet_isnull c4RS 1 = .ok false
    ∧ MysqlResultSet_isnull c4RS 2 = .ok false
    ∧ MysqlResultSet_getColumnSize c4RS 0 = .error .indexError
    ∧ MysqlResultSet_getColumnSize c4RS 3 = .error .indexError
    ∧ MysqlResultSet_getString c4RS 0 = .error .indexError
    ∧ MysqlResultSet_getString c4RS 3 = .error .indexError
    ∧ MysqlResultSet_getBlob c4RS 0 = .error .indexError
    ∧ MysqlResultSet_getBlob c4RS 3 = .error .indexError :=
  ⟨rfl, rfl, rfl, rfl, rfl, rfl, rfl, rfl, rfl, rfl, rfl, rfl, rfl, rfl⟩

/-! ### C9 -/

/-- C9: the claim says teardown is safe even when construction only partially
succeeded (metadata retrieval failed after a positive column count).  The code
violates this: `MysqlResultSet_free` iterates `columnCount` times over the
column table, but that table was never allocated on the failed-metadata path,
so the loop dereferences it out of bounds (`memError`).  On a fully
constructed cursor teardown succeeds, and closes the statement handle exactly
when the caller did not ask to keep it. -/
theorem C9_partial_teardown_bug :
    (MysqlResultSet_new c9Stmt 0 false).columnCount = 1
    ∧ (MysqlResultSet_new c9Stmt 0 false).columns = []
    ∧ MysqlResultSet_free (MysqlResultSet_new c9Stmt 0 false) = .error .memError
    ∧ MysqlResultSet_free (MysqlResultSet_new c9GoodStmt 0 false) =
        .ok { c9GoodStmt with
              events := [EEvent.bindResult, EEvent.storeResult,
                         EEvent.freeResult, EEvent.close] }
    ∧ MysqlResultSet_free (MysqlResultSet_new c9GoodStmt 0 true) =
        .ok { c9GoodStmt with
              events := [EEvent.bindResult, EEvent.storeResult, EEvent.freeResult] } :=
  ⟨rfl, rfl, rfl, rfl, rfl⟩

/-! ### C5 -/

/-- C5 counterexample: on a one-row source with no row cap, the second advance
makes the engine report no-more-rows; contrary to the claim, the cursor does
NOT transition to the terminal state (`stop` stays `false`), and the third
advance is not a cheap no-op: it invokes the engine's fetch again (a new
`fetch` event appears in the engine trace). -/
theorem C5_counterexample :
    (stateAfter c5R0 2).stop = false
    ∧ (stateAfter c5R0 2).lastError = MYSQL_NO_DATA
    ∧ MysqlResultSet_next (stateAfter c5R0 2) = .ok (stateAfter c5R0 3, false)
    ∧ (stateAfter c5R0 3).stmt.events = (stateAfter c5R0 2).stmt.events ++ [EEvent.fetch]
    ∧ (stateAfter c5R0 3).stop = false :=
  ⟨rfl, rfl, rfl, rfl, rfl⟩

lemma free_ok_of_columns (R : MysqlRS) (h : R.columnCount ≤ R.columns.length) :
    ∃ s2, MysqlResultSet_free R = .ok s2 := by
  unfold MysqlResultSet_free
  rw [freeColumnBuffers_of_le _ _ h]
  exact ⟨_, rfl⟩

/-- C5 (amended): once the cursor's terminal flag is set, `advance` is a cheap
no-op — it returns "no row" with the state (and hence the engine trace)
completely unchanged, so the terminal state is one-way.  But when the engine
reports no-more-rows, `advance` returns "no row" (not an error) WITHOUT
setting the terminal flag: the cursor stays non-terminal and the fetch that
produced the answer does invoke the engine, as every later advance will again. -/
theorem C5_no_data_not_terminal (R : MysqlRS) :
    (R.stop = true → MysqlResultSet_next R = .ok (R, false))
    ∧ (R.stop = false → (R.maxRows = 0 ∨ R.currentRow < R.maxRows) →
       R.needRebind = false → R.stmt.rows = [] →
       ∃ R2, MysqlResultSet_next R = .ok (R2, false) ∧ R2.stop = false
         ∧ R2.stmt.events = R.stmt.events ++ [EEvent.fetch]) := by
  constructor
  · intro h
    simp [MysqlResultSet_next, h]
  · intro hstop hlim hreb hrows
    have hcond : ¬ (R.maxRows ≠ 0 ∧ R.maxRows ≤ R.currentRow) := by
      rcases hlim with h | h
      · simp [h]
      · intro hc
        omega
    by_cases hm : R.maxRows = 0
    · simp [MysqlResultSet_next, hstop, hcond, hreb, hm, doFetch, mysql_stmt_fetch, hrows,
        MYSQL_NO_DATA, MYSQL_OK, MYSQL_DATA_TRUNCATED]
    · have hlt : ¬ R.maxRows ≤ R.currentRow := fun hle => hcond ⟨hm, hle⟩
      simp [MysqlResultSet_next, hstop, hcond, hreb, hm, hlt, doFetch, mysql_stmt_fetch, hrows,
        MYSQL_NO_DATA, MYSQL_OK, MYSQL_DATA_TRUNCATED]

/-- Witness for C5's amended theorem: a terminal cursor (failed metadata) and a
row-exhausted but non-terminal cursor. -/
theorem C5_no_data_not_terminal_witness :
    (MysqlResultSet_next (MysqlResultSet_new c9Stmt 0 false) =
      .ok (MysqlResultSet_new c9Stmt 0 false, false))
    ∧ (∃ R2, MysqlResultSet_next (stateAfter c5R0 2) = .ok (R2, false) ∧ R2.stop = false
        ∧ R2.stmt.events = (stateAfter c5R0 2).stmt.events ++ [EEvent.fetch]) :=
  ⟨(C5_no_data_not_terminal (MysqlResultSet_new c9Stmt 0 false)).1 rfl,
   (C5_no_data_not_terminal (stateAfter c5R0 2)).2 rfl (Or.inl rfl) rfl rfl⟩

/-- C8: construction is a total function (it cannot raise).  Zero columns or a
failed metadata retrieval yields a cursor already terminal whose first advance
immediately reports "no row"; a failed bulk bind registration yields a
terminal cursor that is still returned and can be torn down cleanly; a failed
client-side result materialization leaves the cursor non-terminal. -/
theorem C8_construction_graceful (s : Stmt) (m : Nat) (k : Bool) :
    ((s.fieldCount = 0 ∨ s.metaAvailable = false) →
      (MysqlResultSet_new s m k).stop = true ∧
      MysqlResultSet_next (MysqlResultSet_new s m k) = .ok (MysqlResultSet_new s m k, false))
    ∧ (s.fieldCount ≠ 0 → s.metaAvailable = true → s.bindResultFails = true →
      (MysqlResultSet_new s m k).stop = true ∧
      ∃ s2, MysqlResultSet_free (MysqlResultSet_new s m k) = .ok s2)
    ∧ (s.fieldCount ≠ 0 → s.metaAvailable = true → s.bindResultFails = false →
      s.storeResultFails = true →
      (MysqlResultSet_new s m k).stop = false) := by
  refine ⟨?_, ?_, ?_⟩
  · intro h
    constructor
    · simp [MysqlResultSet_new, h]
    · simp [MysqlResultSet_new, h, MysqlResultSet_next]
  · intro hf hm hb
    have hcond : ¬ (s.fieldCount = 0 ∨ s.metaAvailable = false) := by simp [hf, hm]
    constructor
    · simp [MysqlResultSet_new, hcond, mysql_stmt_bind_result, mysql_stmt_store_result, hb]
    · apply free_ok_of_columns
      simp [MysqlResultSet_new, hcond]
  · intro hf hm hb hs
    have hcond : ¬ (s.fieldCount = 0 ∨ s.metaAvailable = false) := by simp [hf, hm]
    simp [MysqlResultSet_new, hcond, mysql_stmt_bind_result, mysql_stmt_store_result, hb]

/-- Witness for C8 at concrete statements exercising all three construction
outcomes. -/
theorem C8_construction_graceful_witness :
    ((MysqlResultSet_new c9Stmt 0 false).stop = true ∧
      MysqlResultSet_next (MysqlResultSet_new c9Stmt 0 false) =
        .ok (MysqlResultSet_new c9Stmt 0 false, false))
    ∧ ((MysqlResultSet_new ({ c9GoodStmt with bindResultFails := true }) 0 false).stop = true ∧
      ∃ s2, MysqlResultSet_free
        (MysqlResultSet_new ({ c9GoodStmt with bindResultFails := true }) 0 false) = .ok s2)
    ∧ (MysqlResultSet_new ({ c9GoodStmt with storeResultFails := true }) 0 false).stop = false :=
  ⟨(C8_construction_graceful c9Stmt 0 false).1 (Or.inr rfl),
   (C8_construction_graceful ({ c9GoodStmt with bindResultFails := true }) 0 false).2.1
     (by decide) rfl rfl,
   (C8_construction_graceful ({ c9GoodStmt with storeResultFails := true }) 0 false).2.2
     (by decide) rfl rfl rfl⟩

/-! ### Truncation-resolution lemmas -/

lemma take_writeInto (buf data : List Nat) :
    (writeInto buf data).take data.length = data := by
  simp [writeInto, List.take_left]

lemma getD_eq_of_getElem? {l : List ColumnT} {i : Nat} {c : ColumnT}
    (h : l[i]? = some c) : l.getD i default = c := by
  rw [List.getD_eq_getElem?_getD, h]
  rfl

lemma getD_eq_of_getElem?_bind {l : List BindT} {i : Nat} {b : BindT}
    (h : l[i]? = some b) : l.getD i default = b := by
  rw [List.getD_eq_getElem?_getD, h]
  rfl

lemma ensureCapacity_fits (R : MysqlRS) (i : Nat)
    (h : (R.columns.getD i default).real_length ≤ (R.bind.getD i default).buffer_length) :
    _ensureCapacity R i = .ok R := by
  simp only [_ensureCapacity]
  rw [if_neg (Nat.not_lt.mpr h)]

lemma ensureCapacity_fail (R : MysqlRS) (i : Nat)
    (htr : (R.bind.getD i default).buffer_length < (R.columns.getD i default).real_length)
    (hff : R.stmt.fetchColumnFails = true) :
    _ensureCapacity R i = .error (.sqlException "mysql_stmt_fetch_column") := by
  simp only [_ensureCapacity]
  rw [if_pos htr]
  simp [mysql_stmt_fetch_column, hff]

lemma ensureCapacity_trunc (R : MysqlRS) (i : Nat) (c : ColumnT) (b : BindT)
    (row : Row) (v : List Nat)
    (hc : R.columns[i]? = some c) (hb : R.bind[i]? = some b)
    (htr : b.buffer_length < c.real_length)
    (hff : R.stmt.fetchColumnFails = false)
    (hcur : R.stmt.current = some row)
    (hcell : row.getD i none = some v) :
    _ensureCapacity R i = .ok { R with
      stmt := { R.stmt with events := R.stmt.events ++ [EEvent.fetchColumn i] }
      columns := R.columns.set i { c with
        buffer := writeInto (resize c.buffer (c.real_length + 1)) (v.take c.real_length) }
      bind := R.bind.set i { buffer_length := c.real_length }
      lastError := 0
      needRebind := true } := by
  have hcD := getD_eq_of_getElem? hc
  have hbD := getD_eq_of_getElem?_bind hb
  simp only [_ensureCapacity, hcD, hbD, mysql_stmt_fetch_column, hff, hcur, hcell]
  rw [if_pos htr]
  simp

lemma getString_truncated_spec (R : MysqlRS) (ci : Int) (i : Nat) (c : ColumnT) (b : BindT)
    (row : Row) (v : List Nat)
    (hidx : checkAndSetColumnIndex ci R.columnCount = .ok i)
    (hc : R.columns[i]? = some c) (hb : R.bind[i]? = some b)
    (hnull : c.is_null = false)
    (htr : b.buffer_length < c.real_length)
    (hff : R.stmt.fetchColumnFails = false)
    (hcur : R.stmt.current = some row)
    (hcell : row.getD i none = some v)
    (hlen : v.length = c.real_length) :
    ∃ R2, MysqlResultSet_getString R ci = .ok (R2, some v)
      ∧ R2.bind[i]? = some { buffer_length := c.real_length }
      ∧ (∃ c2, R2.columns[i]? = some c2 ∧ c2.buffer.length = c.real_length + 1
          ∧ c2.real_length = c.real_length)
      ∧ R2.needRebind = true
      ∧ R2.stmt.events = R.stmt.events ++ [EEvent.fetchColumn i] := by
  have hic : i < R.columns.length := (List.getElem?_eq_some.mp hc).1
  have hib : i < R.bind.length := (List.getElem?_eq_some.mp hb).1
  have htake : v.take c.real_length = v := by
    rw [← hlen]
    exact List.take_length v
  have hdlen : (v.take c.real_length).length ≤ (resize c.buffer (c.real_length + 1)).length := by
    rw [htake, hlen, length_resize]
    omega
  have hWlen : (writeInto (resize c.buffer (c.real_length + 1)) (v.take c.real_length)).length
      = c.real_length + 1 := by
    rw [length_writeInto _ _ hdlen, length_resize]
  have hens := ensureCapacity_trunc R i c b row v hc hb htr hff hcur hcell
  have hsetc : (R.columns.set i { c with
        buffer := writeInto (resize c.buffer (c.real_length + 1)) (v.take c.real_length) })[i]?
      = some { c with
        buffer := writeInto (resize c.buffer (c.real_length + 1)) (v.take c.real_length) } :=
    List.getElem?_set_eq_of_lt _ hic
  have hlt : c.real_length
      < (writeInto (resize c.buffer (c.real_length + 1)) (v.take c.real_length)).length := by
    rw [hWlen]
    omega
  have hview : ((writeInto (resize c.buffer (c.real_length + 1)) (v.take c.real_length)).set
      c.real_length 0).take c.real_length = v := by
    simp only [writeInto, htake]
    rw [← hlen]
    exact take_set_append v _ 0
  simp only [hnull] at hsetc
  simp only [MysqlResultSet_getString, hidx, hc, hnull, Bool.false_eq_true, if_false,
    hens, hsetc]
  rw [if_pos hlt, hview]
  refine ⟨_, rfl, ?_, ?_, ?_, ?_⟩
  · exact List.getElem?_set_eq_of_lt _ hib
  · refine ⟨_, List.getElem?_set_eq_of_lt _ (by rw [List.length_set]; exact hic), ?_, rfl⟩
    rw [List.length_set]
    exact hWlen
  · rfl
  · rfl

lemma getBlob_truncated_spec (R : MysqlRS) (ci : Int) (i : Nat) (c : ColumnT) (b : BindT)
    (row : Row) (v : List Nat)
    (hidx : checkAndSetColumnIndex ci R.columnCount = .ok i)
    (hc : R.columns[i]? = some c) (hb : R.bind[i]? = some b)
    (hnull : c.is_null = false)
    (htr : b.buffer_length < c.real_length)
    (hff : R.stmt.fetchColumnFails = false)
    (hcur : R.stmt.current = some row)
    (hcell : row.getD i none = some v)
    (hlen : v.length = c.real_length) :
    ∃ R2, MysqlResultSet_getBlob R ci = .ok (R2, some (v, c.real_length))
      ∧ R2.bind[i]? = some { buffer_length := c.real_length }
      ∧ R2.stmt.events = R.stmt.events ++ [EEvent.fetchColumn i] := by
  have hic : i < R.columns.length := (List.getElem?_eq_some.mp hc).1
  have hib : i < R.bind.length := (List.getElem?_eq_some.mp hb).1
  have htake : v.take c.real_length = v := by
    rw [← hlen]
    exact List.take_length v
  have hens := ensureCapacity_trunc R i c b row v hc hb htr hff hcur hcell
  have hsetc : (R.columns.set i { c with
        buffer := writeInto (resize c.buffer (c.real_length + 1)) (v.take c.real_length) })[i]?
      = some { c with
        buffer := writeInto (resize c.buffer (c.real_length + 1)) (v.take c.real_length) } :=
    List.getElem?_set_eq_of_lt _ hic
  have hview : (writeInto (resize c.buffer (c.real_length + 1)) (v.take c.real_length)).take
      c.real_length = v := by
    simp only [writeInto, htake]
    rw [← hlen]
    exact List.take_left v _
  simp only [hnull] at hsetc
  simp only [MysqlResultSet_getBlob, hidx, hc, hnull, Bool.false_eq_true, if_false,
    hens, hsetc]
  rw [hview]
  refine ⟨_, rfl, ?_, rfl⟩
  exact List.getElem?_set_eq_of_lt _ hib

lemma getString_fits_spec (R : MysqlRS) (ci : Int) (i : Nat) (c : ColumnT) (b : BindT)
    (hidx : checkAndSetColumnIndex ci R.columnCount = .ok i)
    (hc : R.columns[i]? = some c) (hb : R.bind[i]? = some b)
    (hnull : c.is_null = false)
    (hfits : c.real_length ≤ b.buffer_length)
    (halloc : c.buffer.length = b.buffer_length + 1) :
    ∃ R2 w, MysqlResultSet_getString R ci = .ok (R2, some w) := by
  have hens : _ensureCapacity R i = .ok R := by
    apply ensureCapacity_fits
    rw [getD_eq_of_getElem? hc, getD_eq_of_getElem?_bind hb]
    exact hfits
  have hlt : c.real_length < c.buffer.length := by
    rw [halloc]
    omega
  simp only [MysqlResultSet_getString, hidx, hc, hnull, Bool.false_eq_true, if_false, hens]
  rw [if_pos hlt]
  exact ⟨_, _, rfl⟩

lemma getBlob_fits_spec (R : MysqlRS) (ci : Int) (i : Nat) (c : ColumnT) (b : BindT)
    (hidx : checkAndSetColumnIndex ci R.columnCount = .ok i)
    (hc : R.columns[i]? = some c) (hb : R.bind[i]? = some b)
    (hnull : c.is_null = false)
    (hfits : c.real_length ≤ b.buffer_length) :
    ∃ R2 p, MysqlResultSet_getBlob R ci = .ok (R2, some p) := by
  have hens : _ensureCapacity R i = .ok R := by
    apply ensureCapacity_fits
    rw [getD_eq_of_getElem? hc, getD_eq_of_getElem?_bind hb]
    exact hfits
  simp only [MysqlResultSet_getBlob, hidx, hc, hnull, Bool.false_eq_true, if_false, hens]
  exact ⟨_, _, rfl⟩

lemma getString_null_spec (R : MysqlRS) (ci : Int) (i : Nat) (c : ColumnT)
    (hidx : checkAndSetColumnIndex ci R.columnCount = .ok i)
    (hc : R.columns[i]? = some c) (hnull : c.is_null = true) :
    MysqlResultSet_getString R ci = .ok (R, none) := by
  simp [MysqlResultSet_getString, hidx, hc, hnull]

lemma getBlob_null_spec (R : MysqlRS) (ci : Int) (i : Nat) (c : ColumnT)
    (hidx : checkAndSetColumnIndex ci R.columnCount = .ok i)
    (hc : R.columns[i]? = some c) (hnull : c.is_null = true) :
    MysqlResultSet_getBlob R ci = .ok (R, none) := by
  simp [MysqlResultSet_getBlob, hidx, hc, hnull]

lemma getString_trunc_fail_spec (R : MysqlRS) (ci : Int) (i : Nat) (c : ColumnT) (b : BindT)
    (hidx : checkAndSetColumnIndex ci R.columnCount = .ok i)
    (hc : R.columns[i]? = some c) (hb : R.bind[i]? = some b)
    (hnull : c.is_null = false)
    (htr : b.buffer_length < c.real_length)
    (hff : R.stmt.fetchColumnFails = true) :
    MysqlResultSet_getString R ci = .error (.sqlException "mysql_stmt_fetch_column") := by
  have hens : _ensureCapacity R i = .error (.sqlException "mysql_stmt_fetch_column") := by
    apply ensureCapacity_fail
    · rw [getD_eq_of_getElem? hc, getD_eq_of_getElem?_bind hb]
      exact htr
    · exact hff
  simp only [MysqlResultSet_getString, hidx, hc, hnull, Bool.false_eq_true, if_false, hens]

lemma getBlob_trunc_fail_spec (R : MysqlRS) (ci : Int) (i : Nat) (c : ColumnT) (b : BindT)
    (hidx : checkAndSetColumnIndex ci R.columnCount = .ok i)
    (hc : R.columns[i]? = some c) (hb : R.bind[i]? = some b)
    (hnull : c.is_null = false)
    (htr : b.buffer_length < c.real_length)
    (hff : R.stmt.fetchColumnFails = true) :
    MysqlResultSet_getBlob R ci = .error (.sqlException "mysql_stmt_fetch_column") := by
  have hens : _ensureCapacity R i = .error (.sqlException "mysql_stmt_fetch_column") := by
    apply ensureCapacity_fail
    · rw [getD_eq_of_getElem? hc, getD_eq_of_getElem?_bind hb]
      exact htr
    · exact hff
  simp only [MysqlResultSet_getBlob, hidx, hc, hnull, Bool.false_eq_true, if_false, hens]

/-- A two-column statement whose current row holds a 5-byte value in column 1
(registered capacity 2, so it was truncated) and NULL in column 2. -/
def c1Stmt : Stmt := { rows := []
                       current := some [some [1, 2, 3, 4, 5], none]
                       fieldCount := 2
                       fieldNames := ["a", "b"] }

/-- A cursor mid-row over `c1Stmt`: column 1 truncated (declared length 5,
registered capacity 2, allocation 3), column 2 null. -/
def c1RS : MysqlRS :=
  { stop := false, keep := false, maxRows := 0, lastError := 0, needRebind := false,
    currentRow := 1, columnCount := 2, meta := true,
    bind := [{ buffer_length := 2 }, { buffer_length := 2 }],
    columns := [{ is_null := false, fieldName := "a", real_length := 5, buffer := [1, 2, 9] },
                { is_null := true, fieldName := "b", real_length := 0, buffer := [0, 0, 9] }],
    stmt := c1Stmt }

/-- C1: for a column of the current row whose fetched value length
(`real_length` = declaredLength) exceeds the registered buffer capacity,
`getString`/`getBlob` grow the buffer to `declaredLength + 1` bytes, issue
exactly one targeted re-fetch of only that column (the engine trace grows by
the single event `fetchColumn i`), and return the full untruncated value;
afterward the registered capacity equals `declaredLength` (so capacity ≥
declaredLength); a failing targeted re-fetch raises the fatal exception. -/
theorem C1_truncation_growth (R : MysqlRS) (ci : Int) (i : Nat) (c : ColumnT) (b : BindT)
    (row : Row) (v : List Nat)
    (hidx : checkAndSetColumnIndex ci R.columnCount = .ok i)
    (hc : R.columns[i]? = some c) (hb : R.bind[i]? = some b)
    (hnull : c.is_null = false)
    (htr : b.buffer_length < c.real_length)
    (hcur : R.stmt.current = some row)
    (hcell : row.getD i none = some v)
    (hlen : v.length = c.real_length) :
    (R.stmt.fetchColumnFails = false →
      (∃ R2, MysqlResultSet_getString R ci = .ok (R2, some v)
        ∧ R2.bind[i]? = some { buffer_length := c.real_length }
        ∧ (∃ c2, R2.columns[i]? = some c2 ∧ c2.buffer.length = c.real_length + 1)
        ∧ R2.stmt.events = R.stmt.events ++ [EEvent.fetchColumn i])
      ∧ (∃ R2, MysqlResultSet_getBlob R ci = .ok (R2, some (v, c.real_length))
        ∧ R2.bind[i]? = some { buffer_length := c.real_length }
        ∧ R2.stmt.events = R.stmt.events ++ [EEvent.fetchColumn i]))
    ∧ (R.stmt.fetchColumnFails = true →
      MysqlResultSet_getString R ci = .error (.sqlException "mysql_stmt_fetch_column")
      ∧ MysqlResultSet_getBlob R ci = .error (.sqlException "mysql_stmt_fetch_column")) := by
  constructor
  · intro hff
    constructor
    · obtain ⟨R2, h1, h2, ⟨c2, h3, h4, h5⟩, h6, h7⟩ :=
        getString_truncated_spec R ci i c b row v hidx hc hb hnull htr hff hcur hcell hlen
      exact ⟨R2, h1, h2, ⟨c2, h3, h4⟩, h7⟩
    · exact getBlob_truncated_spec R ci i c b row v hidx hc hb hnull htr hff hcur hcell hlen
  · intro hff
    exact ⟨getString_trunc_fail_spec R ci i c b hidx hc hb hnull htr hff,
           getBlob_trunc_fail_spec R ci i c b hidx hc hb hnull htr hff⟩

/-- Witness for C1 at the concrete truncated cursor `c1RS`. -/
theorem C1_truncation_growth_witness :
    ∃ R2, MysqlResultSet_getString c1RS 1 = .ok (R2, some [1, 2, 3, 4, 5])
      ∧ R2.bind[0]? = some { buffer_length := 5 }
      ∧ (∃ c2, R2.columns[0]? = some c2 ∧ c2.buffer.length = 6)
      ∧ R2.stmt.events = c1RS.stmt.events ++ [EEvent.fetchColumn 0] :=
  ((C1_truncation_growth c1RS 1 0
      { is_null := false, fieldName := "a", real_length := 5, buffer := [1, 2, 9] }
      { buffer_length := 2 } [some [1, 2, 3, 4, 5], none] [1, 2, 3, 4, 5]
      rfl (by decide) (by decide) (by decide) (by decide) (by decide)
      (by decide) (by decide)).1 (by decide)).1

/-- C6: for an in-range column index of the current row, a column whose null
flag is set yields absent (`none`) from both `getString` and `getBlob`, never
a buffer view and with the cursor unchanged; a non-null column yields a
non-absent view from both. -/
theorem C6_null_absent (R : MysqlRS) (ci : Int) (i : Nat) (c : ColumnT) (b : BindT)
    (hidx : checkAndSetColumnIndex ci R.columnCount = .ok i)
    (hc : R.columns[i]? = some c) (hb : R.bind[i]? = some b)
    (halloc : c.buffer.length = b.buffer_length + 1)
    (hff : R.stmt.fetchColumnFails = false)
    (htrc : b.buffer_length < c.real_length →
      ∃ row v, R.stmt.current = some row ∧ row.getD i none = some v
        ∧ v.length = c.real_length) :
    (c.is_null = true →
      MysqlResultSet_getString R ci = .ok (R, none)
      ∧ MysqlResultSet_getBlob R ci = .ok (R, none))
    ∧ (c.is_null = false →
      (∃ R2 w, MysqlResultSet_getString R ci = .ok (R2, some w))
      ∧ (∃ R2 p, MysqlResultSet_getBlob R ci = .ok (R2, some p))) := by
  constructor
  · intro hnull
    exact ⟨getString_null_spec R ci i c hidx hc hnull,
           getBlob_null_spec R ci i c hidx hc hnull⟩
  · intro hnull
    by_cases htr : b.buffer_length < c.real_length
    · obtain ⟨row, v, hcur, hcell, hlen⟩ := htrc htr
      constructor
      · obtain ⟨R2, h1, h2⟩ :=
          getString_truncated_spec R ci i c b row v hidx hc hb hnull htr hff hcur hcell hlen
        exact ⟨R2, v, h1⟩
      · obtain ⟨R2, h1, h2⟩ :=
          getBlob_truncated_spec R ci i c b row v hidx hc hb hnull htr hff hcur hcell hlen
        exact ⟨R2, _, h1⟩
    · have hfits : c.real_length ≤ b.buffer_length := Nat.not_lt.mp htr
      exact ⟨getString_fits_spec R ci i c b hidx hc hb hnull hfits halloc,
             getBlob_fits_spec R ci i c b hidx hc hb hnull hfits⟩

/-- Witness for C6: the null column 2 of `c1RS` yields absent; the non-null
(truncated) column 1 yields views. -/
theorem C6_null_absent_witness :
    (MysqlResultSet_getString c1RS 2 = .ok (c1RS, none)
      ∧ MysqlResultSet_getBlob c1RS 2 = .ok (c1RS, none))
    ∧ ((∃ R2 w, MysqlResultSet_getString c1RS 1 = .ok (R2, some w))
      ∧ (∃ R2 p, MysqlResultSet_getBlob c1RS 1 = .ok (R2, some p))) :=
  ⟨(C6_null_absent c1RS 2 1
      { is_null := true, fieldName := "b", real_length := 0, buffer := [0, 0, 9] }
      { buffer_length := 2 } rfl (by decide) (by decide) (by decide) (by decide)
      (fun h => absurd h (by decide))).1 (by decide),
   (C6_null_absent c1RS 1 0
      { is_null := false, fieldName := "a", real_length := 5, buffer := [1, 2, 9] }
      { buffer_length := 2 } rfl (by decide) (by decide) (by decide) (by decide)
      (fun _ => ⟨[some [1, 2, 3, 4, 5], none], [1, 2, 3, 4, 5], by decide, by decide,
        by decide⟩)).2 (by decide)⟩

/-- C7: for an in-range column index, `columnSize` returns 0 when the column
is null for the current row and otherwise the value's true length
(`real_length` = declaredLength, as reported by the engine); in particular
when the current row's cell holds value `v` with `v.length = real_length`, the
reported size is `v.length`, which is never smaller than the number of bytes
actually stored in the buffer (`min v.length buffer_length`), including when
the value was truncated into a smaller buffer. -/
theorem C7_column_size (R : MysqlRS) (ci : Int) (i : Nat) (c : ColumnT)
    (hidx : checkAndSetColumnIndex ci R.columnCount = .ok i)
    (hc : R.columns[i]? = some c) :
    (c.is_null = true → MysqlResultSet_getColumnSize R ci = .ok 0)
    ∧ (c.is_null = false → MysqlResultSet_getColumnSize R ci = .ok c.real_length)
    ∧ (∀ row v b, R.stmt.current = some row → row.getD i none = some v →
        v.length = c.real_length → c.is_null = false → R.bind[i]? = some b →
        MysqlResultSet_getColumnSize R ci = .ok v.length
        ∧ min v.length b.buffer_length ≤ v.length) := by
  refine ⟨?_, ?_, ?_⟩
  · intro hnull
    simp [MysqlResultSet_getColumnSize, hidx, hc, hnull]
  · intro hnull
    simp [MysqlResultSet_getColumnSize, hidx, hc, hnull]
  · intro row v b hcur hcell hlen hnull hb
    refine ⟨?_, Nat.min_le_left _ _⟩
    rw [hlen]
    simp [MysqlResultSet_getColumnSize, hidx, hc, hnull]

/-- Witness for C7 on `c1RS`: size 0 for the null column 2, size 5 (the true
length, larger than the 2-byte buffer) for the truncated column 1. -/
theorem C7_column_size_witness :
    MysqlResultSet_getColumnSize c1RS 2 = .ok 0
    ∧ (MysqlResultSet_getColumnSize c1RS 1 = .ok 5 ∧ min 5 2 ≤ 5) :=
  ⟨(C7_column_size c1RS 2 1
      { is_null := true, fieldName := "b", real_length := 0, buffer := [0, 0, 9] }
      rfl (by decide)).1 (by decide),
   (C7_column_size c1RS 1 0
      { is_null := false, fieldName := "a", real_length := 5, buffer := [1, 2, 9] }
      rfl (by decide)).2.2 [some [1, 2, 3, 4, 5], none] [1, 2, 3, 4, 5]
      { buffer_length := 2 } (by decide) (by decide) (by decide) (by decide) (by decide)⟩

lemma doFetch_ok (R : MysqlRS) :
    ∃ R2 bb, doFetch R = .ok (R2, bb) ∧ R2.needRebind = R.needRebind
      ∧ R2.stmt.events = R.stmt.events ++ [EEvent.fetch] ∧ R2.stop = R.stop := by
  unfold doFetch mysql_stmt_fetch
  cases hrows : R.stmt.rows with
  | nil => simp [MYSQL_NO_DATA]
  | cons r rest =>
    by_cases ht : rowTruncated R.bind r = true
    · simp [ht, MYSQL_DATA_TRUNCATED]
    · simp [ht, MYSQL_OK]

/-- C3: resolving truncation for any column (which resizes its buffer) sets
the pendingRebind flag; an advance that reaches the fetch while the flag is
set first re-registers the whole bind table with the engine — the engine trace
grows by `bindResult` followed by `fetch`, in that order — and clears the
flag; a failing re-registration raises the fatal exception rather than being
ignored. -/
theorem C3_pending_rebind :
    (∀ (R : MysqlRS) (i : Nat) (c : ColumnT) (b : BindT) (row : Row) (v : List Nat),
      R.columns[i]? = some c → R.bind[i]? = some b →
      b.buffer_length < c.real_length →
      R.stmt.fetchColumnFails = false →
      R.stmt.current = some row → row.getD i none = some v →
      ∃ R2, _ensureCapacity R i = .ok R2 ∧ R2.needRebind = true)
    ∧ (∀ R : MysqlRS, R.needRebind = true → R.stop = false →
      (R.maxRows = 0 ∨ R.currentRow < R.maxRows) →
      R.stmt.bindResultFails = false →
      ∃ R2 bb, MysqlResultSet_next R = .ok (R2, bb) ∧ R2.needRebind = false
        ∧ R2.stmt.events = R.stmt.events ++ [EEvent.bindResult, EEvent.fetch])
    ∧ (∀ R : MysqlRS, R.needRebind = true → R.stop = false →
      (R.maxRows = 0 ∨ R.currentRow < R.maxRows) →
      R.stmt.bindResultFails = true →
      MysqlResultSet_next R = .error (.sqlException "mysql_stmt_bind_result")) := by
  refine ⟨?_, ?_, ?_⟩
  · intro R i c b row v hc hb htr hff hcur hcell
    exact ⟨_, ensureCapacity_trunc R i c b row v hc hb htr hff hcur hcell, rfl⟩
  · intro R hreb hstop hlim hbf
    have hcond : ¬ (R.maxRows ≠ 0 ∧ R.maxRows ≤ R.currentRow) := by
      rcases hlim with h | h
      · simp [h]
      · intro hcc
        omega
    by_cases hm : R.maxRows = 0
    · obtain ⟨R2, bb, hdf, h1, h2, h3⟩ := doFetch_ok
        { R with stmt := { R.stmt with events := R.stmt.events ++ [EEvent.bindResult] },
                 lastError := 0, needRebind := false }
      refine ⟨R2, bb, ?_, h1, ?_⟩
      · rw [show MysqlResultSet_next R = doFetch
            { R with stmt := { R.stmt with events := R.stmt.events ++ [EEvent.bindResult] },
                     lastError := 0, needRebind := false } from by
          simp [MysqlResultSet_next, hstop, hm, hreb, mysql_stmt_bind_result, hbf]]
        exact hdf
      · rw [h2]
        simp
    · have hlt : ¬ R.maxRows ≤ R.currentRow := fun hle => hcond ⟨hm, hle⟩
      obtain ⟨R2, bb, hdf, h1, h2, h3⟩ := doFetch_ok
        { R with currentRow := R.currentRow + 1,
                 stmt := { R.stmt with events := R.stmt.events ++ [EEvent.bindResult] },
                 lastError := 0, needRebind := false }
      refine ⟨R2, bb, ?_, h1, ?_⟩
      · rw [show MysqlResultSet_next R = doFetch
            { R with currentRow := R.currentRow + 1,
                     stmt := { R.stmt with events := R.stmt.events ++ [EEvent.bindResult] },
                     lastError := 0, needRebind := false } from by
          simp [MysqlResultSet_next, hstop, hm, hlt, hreb, mysql_stmt_bind_result, hbf]]
        exact hdf
      · rw [h2]
        simp
  · intro R hreb hstop hlim hbf
    have hcond : ¬ (R.maxRows ≠ 0 ∧ R.maxRows ≤ R.currentRow) := by
      rcases hlim with h | h
      · simp [h]
      · intro hcc
        omega
    by_cases hm : R.maxRows = 0
    · simp [MysqlResultSet_next, hstop, hm, hreb, mysql_stmt_bind_result, hbf]
    · have hlt : ¬ R.maxRows ≤ R.currentRow := fun hle => hcond ⟨hm, hle⟩
      simp [MysqlResultSet_next, hstop, hm, hlt, hreb, mysql_stmt_bind_result, hbf]

/-- A copy of the truncated cursor `c1RS` whose bind table is already marked
stale. -/
def c3RS : MysqlRS := { c1RS with needRebind := true }

/-- Like `c3RS` but the engine rejects the re-registration. -/
def c3RSfail : MysqlRS :=
  { c1RS with needRebind := true, stmt := { c1Stmt with bindResultFails := true } }

/-- Witness for C3: the truncated column 1 of `c1RS` sets the flag; an advance
on `c3RS` rebinds then fetches and clears it; on `c3RSfail` the advance
throws. -/
theorem C3_pending_rebind_witness :
    (∃ R2, _ensureCapacity c1RS 0 = .ok R2 ∧ R2.needRebind = true)
    ∧ (∃ R2 bb, MysqlResultSet_next c3RS = .ok (R2, bb) ∧ R2.needRebind = false
        ∧ R2.stmt.events = c3RS.stmt.events ++ [EEvent.bindResult, EEvent.fetch])
    ∧ MysqlResultSet_next c3RSfail = .error (.sqlException "mysql_stmt_bind_result") :=
  ⟨C3_pending_rebind.1 c1RS 0
      { is_null := false, fieldName := "a", real_length := 5, buffer := [1, 2, 9] }
      { buffer_length := 2 } [some [1, 2, 3, 4, 5], none] [1, 2, 3, 4, 5]
      (by decide) (by decide) (by decide) (by decide) (by decide) (by decide),
   C3_pending_rebind.2.1 c3RS (by decide) (by decide) (Or.inl (by decide)) (by decide),
   C3_pending_rebind.2.2 c3RSfail (by decide) (by decide) (Or.inl (by decide)) (by decide)⟩

lemma doFetch_spec (R : MysqlRS) :
    ∃ R2 bb, doFetch R = .ok (R2, bb)
      ∧ R2.needRebind = R.needRebind ∧ R2.stop = R.stop
      ∧ R2.maxRows = R.maxRows ∧ R2.currentRow = R.currentRow
      ∧ R2.stmt.bindResultFails = R.stmt.bindResultFails
      ∧ R2.stmt.events = R.stmt.events ++ [EEvent.fetch]
      ∧ R2.stmt.rows.length = R.stmt.rows.length - 1
      ∧ (bb = true ↔ R.stmt.rows ≠ []) := by
  unfold doFetch mysql_stmt_fetch
  cases hrows : R.stmt.rows with
  | nil =>
    refine ⟨_, _, rfl, rfl, rfl, rfl, rfl, rfl, rfl, ?_, ?_⟩
    · simp
    · simp [MYSQL_NO_DATA, MYSQL_OK, MYSQL_DATA_TRUNCATED]
  | cons r rest =>
    by_cases ht : rowTruncated R.bind r = true
    · dsimp only
      rw [if_pos ht]
      refine ⟨_, _, rfl, rfl, rfl, rfl, rfl, rfl, rfl, ?_, ?_⟩
      · simp
      · simp [MYSQL_NO_DATA, MYSQL_OK, MYSQL_DATA_TRUNCATED]
    · dsimp only
      rw [if_neg ht]
      refine ⟨_, _, rfl, rfl, rfl, rfl, rfl, rfl, rfl, ?_, ?_⟩
      · simp
      · simp [MYSQL_NO_DATA, MYSQL_OK, MYSQL_DATA_TRUNCATED]

/-- Iteration invariant for the row-limit claim: after `k` advances on a
cursor opened with cap `L > 0` over `N` buffered rows, either the cap was
passed (`L < k`) and the cursor is stopped, or the cursor is live with
`currentRow = k` and `N - k` rows left. -/
def C2Inv (N L k : Nat) (R : MysqlRS) : Prop :=
  R.maxRows = L ∧ R.needRebind = false ∧ R.stmt.bindResultFails = false ∧
  (if L < k then R.stop = true
   else R.stop = false ∧ R.currentRow = k ∧ R.stmt.rows.length = N - k)

lemma C2_step (N L k : Nat) (R : MysqlRS) (hL : 0 < L) (h : C2Inv N L k R) :
    ∃ R2 bb, MysqlResultSet_next R = .ok (R2, bb) ∧ C2Inv N L (k + 1) R2
      ∧ (bb = true ↔ k < min N L)
      ∧ (k < min N L → R2.stmt.events = R.stmt.events ++ [EEvent.fetch])
      ∧ (k = L → R2.stop = true ∧ R2.stmt.rows = []
          ∧ R2.stmt.events = R.stmt.events ++ [EEvent.reset]) := by
  obtain ⟨hmax, hreb, hbf, hrest⟩ := h
  by_cases hk : L < k
  · rw [if_pos hk] at hrest
    refine ⟨R, false, ?_, ⟨hmax, hreb, hbf, ?_⟩, ?_, ?_, ?_⟩
    · simp [MysqlResultSet_next, hrest]
    · rw [if_pos (by omega)]
      exact hrest
    · simp
      omega
    · intro hlt
      omega
    · intro hkL
      omega
  · rw [if_neg hk] at hrest
    obtain ⟨hstop, hcur, hrows⟩ := hrest
    have hm0 : R.maxRows ≠ 0 := by omega
    by_cases hkL : k = L
    · have hlim2 : R.maxRows ≤ R.currentRow := by omega
      refine ⟨{ R with
          currentRow := R.currentRow + 1
          stop := true
          stmt := mysql_stmt_reset R.stmt }, false, ?_, ⟨hmax, hreb, ?_, ?_⟩, ?_, ?_, ?_⟩
      · simp [MysqlResultSet_next, hstop, hm0, hlim2]
      · simp [mysql_stmt_reset, hbf]
      · rw [if_pos (by omega)]
      · simp
        omega
      · intro hlt
        omega
      · intro _
        exact ⟨rfl, by simp [mysql_stmt_reset], by simp [mysql_stmt_reset]⟩
    · have hkL2 : k < L := by omega
      have hlt : ¬ R.maxRows ≤ R.currentRow := by omega
      have hnext : MysqlResultSet_next R
          = doFetch { R with currentRow := R.currentRow + 1 } := by
        simp [MysqlResultSet_next, hstop, hm0, hlt, hreb]
      obtain ⟨R2, bb, hdf, p1, p2, p3, p4, p5, p6, p7, p8⟩ :=
        doFetch_spec { R with currentRow := R.currentRow + 1 }
      have hrowsne : R.stmt.rows ≠ [] ↔ k < N := by
        rw [← List.length_pos_iff_ne_nil, hrows]
        omega
      refine ⟨R2, bb, by rw [hnext]; exact hdf, ⟨?_, ?_, ?_, ?_⟩, ?_, ?_, ?_⟩
      · rw [p3, hmax]
      · rw [p1, hreb]
      · rw [p5]
        exact hbf
      · rw [if_neg (by omega)]
        refine ⟨by rw [p2, hstop], by rw [p4, hcur], ?_⟩
        rw [p7]
        simp only []
        rw [hrows]
        omega
      · rw [p8]
        simp only [hrowsne]
        omega
      · intro _
        rw [p6]
      · intro hcontra
        omega

lemma C2_init (s : Stmt) (L N : Nat) (keep : Bool)
    (hC : s.fieldCount ≠ 0) (hmeta : s.metaAvailable = true)
    (hbf : s.bindResultFails = false) (hN : s.rows.length = N) (hL : 0 < L) :
    C2Inv N L 0 (MysqlResultSet_new s L keep) := by
  have hcond : ¬ (s.fieldCount = 0 ∨ s.metaAvailable = false) := by simp [hC, hmeta]
  refine ⟨?_, ?_, ?_, ?_⟩
  · simp [MysqlResultSet_new, hcond, mysql_stmt_bind_result, mysql_stmt_store_result]
  · simp [MysqlResultSet_new, hcond, mysql_stmt_bind_result, mysql_stmt_store_result]
  · simp [MysqlResultSet_new, hcond, mysql_stmt_bind_result, mysql_stmt_store_result, hbf]
  · rw [if_neg (by omega)]
    refine ⟨?_, ?_, ?_⟩
    · simp [MysqlResultSet_new, hcond, mysql_stmt_bind_result, mysql_stmt_store_result, hbf]
    · simp [MysqlResultSet_new, hcond, mysql_stmt_bind_result, mysql_stmt_store_result]
    · simp [MysqlResultSet_new, hcond, mysql_stmt_bind_result, mysql_stmt_store_result, hN]

lemma C2_inv_stateAfter (s : Stmt) (L N : Nat) (keep : Bool)
    (hC : s.fieldCount ≠ 0) (hmeta : s.metaAvailable = true)
    (hbf : s.bindResultFails = false) (hN : s.rows.length = N) (hL : 0 < L) :
    ∀ k, C2Inv N L k (stateAfter (MysqlResultSet_new s L keep) k) := by
  intro k
  induction k with
  | zero => exact C2_init s L N keep hC hmeta hbf hN hL
  | succ k ih =>
    obtain ⟨R2, bb, hnext, hinv, _⟩ := C2_step N L k _ hL ih
    have hst : stateAfter (MysqlResultSet_new s L keep) (k + 1) = R2 := by
      simp [stateAfter, iterNext, hnext]
    rw [hst]
    exact hinv

/-- C2: on a cursor opened with row limit `L > 0` over a source of `N` rows,
the `k`-th advance (0-based) succeeds without error and returns a row exactly
when `k < min N L`, so advance returns true exactly `min N L` times and false
on every later call; a fetch happens (engine trace grows by `fetch`) for every
permitted row — in particular the `min N L`-th, last permitted row is still
fully fetched, the cap being checked before the fetch — and the advance that
hits the cap (`k = L`) stops the cursor and asks the engine to discard the
remaining buffered rows (`reset`; no fetch) before reporting "no row". -/
theorem C2_advance_min_rows (s : Stmt) (L N : Nat) (keep : Bool)
    (hC : s.fieldCount ≠ 0) (hmeta : s.metaAvailable = true)
    (hbf : s.bindResultFails = false) (hN : s.rows.length = N) (hL : 0 < L) :
    ∀ k, ∃ R2 bb,
      MysqlResultSet_next (stateAfter (MysqlResultSet_new s L keep) k) = .ok (R2, bb)
      ∧ (bb = true ↔ k < min N L)
      ∧ (k < min N L → R2.stmt.events
          = (stateAfter (MysqlResultSet_new s L keep) k).stmt.events ++ [EEvent.fetch])
      ∧ (k = L → R2.stop = true ∧ R2.stmt.rows = []
          ∧ R2.stmt.events
            = (stateAfter (MysqlResultSet_new s L keep) k).stmt.events ++ [EEvent.reset]) := by
  intro k
  obtain ⟨R2, bb, hnext, _, hiff, hev, hlimit⟩ :=
    C2_step N L k _ hL (C2_inv_stateAfter s L N keep hC hmeta hbf hN hL k)
  exact ⟨R2, bb, hnext, hiff, hev, hlimit⟩

/-- A three-row, one-column statement for the row-limit witness. -/
def c2Stmt : Stmt := { rows := [[some [1]], [some [2]], [some [3]]],
                       fieldCount := 1
                       fieldNames := ["a"] }

/-- Witness for C2 with `N = 3`, `L = 2`, at the cap-hitting call `k = 2`. -/
theorem C2_advance_min_rows_witness :
    ∃ R2 bb,
      MysqlResultSet_next (stateAfter (MysqlResultSet_new c2Stmt 2 false) 2) = .ok (R2, bb)
      ∧ (bb = true ↔ 2 < min 3 2)
      ∧ (2 < min 3 2 → R2.stmt.events
          = (stateAfter (MysqlResultSet_new c2Stmt 2 false) 2).stmt.events ++ [EEvent.fetch])
      ∧ (2 = 2 → R2.stop = true ∧ R2.stmt.rows = []
          ∧ R2.stmt.events
            = (stateAfter (MysqlResultSet_new c2Stmt 2 false) 2).stmt.events ++ [EEvent.reset]) :=
  C2_advance_min_rows c2Stmt 2 3 false (by decide) rfl rfl rfl (by decide) 2

/-! ### The buffer/capacity invariant (C10) -/

/-- Every column's allocated buffer is exactly one byte larger than the
capacity registered for it in the bind table. -/
def BufInv (R : MysqlRS) : Prop :=
  ∀ (i : Nat) (c : ColumnT) (b : BindT), R.columns[i]? = some c → R.bind[i]? = some b →
    c.buffer.length = b.buffer_length + 1

/-- Cursor states reachable through the public operations. -/
inductive Reach : MysqlRS → Prop where
  | new : ∀ (s : Stmt) (m : Nat) (k : Bool), Reach (MysqlResultSet_new s m k)
  | next : ∀ R R2 bb, Reach R → MysqlResultSet_next R = .ok (R2, bb) → Reach R2
  | getString : ∀ R ci R2 w, Reach R →
      MysqlResultSet_getString R ci = .ok (R2, w) → Reach R2
  | getBlob : ∀ R ci R2 p, Reach R →
      MysqlResultSet_getBlob R ci = .ok (R2, p) → Reach R2

lemma length_fetch_column (s : Stmt) (n : Nat) (buf : List Nat) (i : Nat)
    (h : n ≤ buf.length) :
    (mysql_stmt_fetch_column s { buffer_length := n } buf i).2.1.length = buf.length := by
  unfold mysql_stmt_fetch_column
  dsimp only
  by_cases hf : s.fetchColumnFails = true
  · rw [if_pos hf]
  · rw [if_neg hf]
    cases s.current with
    | none => rfl
    | some row =>
      dsimp only
      cases hcell : row.getD i none with
      | none => rfl
      | some v =>
        dsimp only
        apply length_writeInto
        calc (v.take n).length ≤ n := by
              rw [List.length_take]
              exact Nat.min_le_left _ _
          _ ≤ buf.length := h

lemma bufInv_new (s : Stmt) (m : Nat) (k : Bool) : BufInv (MysqlResultSet_new s m k) := by
  intro i c b hc hb
  by_cases hcond : s.fieldCount = 0 ∨ s.metaAvailable = false
  · simp only [MysqlResultSet_new] at hc
    rw [if_pos hcond] at hc
    simp at hc
  · simp only [MysqlResultSet_new] at hc hb
    rw [if_neg hcond] at hc hb
    simp only [List.getElem?_replicate] at hb
    by_cases hi : i < s.fieldCount
    · rw [if_pos hi] at hb
      rw [List.getElem?_map, List.getElem?_range hi] at hc
      injection hb with hbv
      injection hc with hcv
      rw [← hcv, ← hbv]
      simp
    · rw [if_neg hi] at hb
      exact absurd hb (by simp)

lemma bufInv_fetch (R : MysqlRS) (hinv : BufInv R) (row : Row) :
    ∀ (i : Nat) (c : ColumnT) (b : BindT),
      ((List.range R.columns.length).map (fun j =>
        fetchCell (R.bind.getD j default) (R.columns.getD j default) (row.getD j none)))[i]?
        = some c →
      R.bind[i]? = some b → c.buffer.length = b.buffer_length + 1 := by
  intro i c b hc hb
  have hi : i < R.columns.length := by
    rcases List.getElem?_eq_some.mp hc with ⟨hlen, _⟩
    simpa using hlen
  rw [List.getElem?_map, List.getElem?_range hi] at hc
  have hc2 : c = fetchCell (R.bind.getD i default) (R.columns.getD i default)
      (row.getD i none) := by
    injection hc with h2
    exact h2.symm
  have hcc : R.columns[i]? = some (R.columns.getD i default) := by
    rw [List.getD_eq_getElem?_getD, List.getElem?_eq_getElem hi]
    rfl
  have hbd : R.bind.getD i default = b := getD_eq_of_getElem?_bind hb
  have horig : (R.columns.getD i default).buffer.length = b.buffer_length + 1 :=
    hinv i _ b hcc hb
  subst hc2
  rw [hbd]
  cases hcell : row.getD i none with
  | none =>
    simp only [fetchCell]
    exact horig
  | some v =>
    have hd : (v.take b.buffer_length).length ≤ (R.columns.getD i default).buffer.length := by
      rw [List.length_take, horig]
      exact Nat.le_succ_of_le (Nat.min_le_left _ _)
    simp only [fetchCell]
    rw [length_writeInto _ _ hd]
    exact horig

lemma bufInv_doFetch (R R2 : MysqlRS) (bb : Bool) (hinv : BufInv R)
    (h : doFetch R = .ok (R2, bb)) : BufInv R2 := by
  unfold doFetch mysql_stmt_fetch at h
  cases hrows : R.stmt.rows with
  | nil =>
    rw [hrows] at h
    dsimp only at h
    rw [if_neg (by simp [MYSQL_NO_DATA])] at h
    injection h with h2
    have hR : R2 = _ := (congrArg Prod.fst h2).symm
    intro i c b hc hb
    rw [hR] at hc hb
    exact hinv i c b hc hb
  | cons r rest =>
    rw [hrows] at h
    dsimp only at h
    by_cases ht : rowTruncated R.bind r = true
    · rw [if_pos ht] at h
      rw [if_neg (by simp [MYSQL_DATA_TRUNCATED])] at h
      injection h with h2
      have hR : R2 = _ := (congrArg Prod.fst h2).symm
      intro i c b hc hb
      rw [hR] at hc hb
      exact bufInv_fetch R hinv r i c b hc hb
    · rw [if_neg ht] at h
      rw [if_neg (by simp [MYSQL_OK])] at h
      injection h with h2
      have hR : R2 = _ := (congrArg Prod.fst h2).symm
      intro i c b hc hb
      rw [hR] at hc hb
      exact bufInv_fetch R hinv r i c b hc hb

lemma getElem?_set_same {α : Type} (l : List α) (j : Nat) (a x : α)
    (h : (l.set j a)[j]? = some x) : x = a ∧ j < l.length := by
  rw [List.getElem?_set, if_pos rfl] at h
  by_cases hl : j < l.length
  · rw [if_pos hl] at h
    injection h with h2
    exact ⟨h2.symm, hl⟩
  · rw [if_neg hl] at h
    exact absurd h (by simp)

lemma bufInv_ensure (R R2 : MysqlRS) (i : Nat) (hinv : BufInv R)
    (h : _ensureCapacity R i = .ok R2) : BufInv R2 := by
  simp only [_ensureCapacity] at h
  by_cases htr : (R.bind.getD i default).buffer_length
      < (R.columns.getD i default).real_length
  · rw [if_pos htr] at h
    by_cases hfc : (mysql_stmt_fetch_column R.stmt
        { buffer_length := (R.columns.getD i default).real_length }
        (resize (R.columns.getD i default).buffer
          ((R.columns.getD i default).real_length + 1)) i).2.2 ≠ 0
    · rw [if_pos hfc] at h
      exact absurd h (by simp)
    · rw [if_neg hfc] at h
      injection h with h2
      rw [← h2]
      intro j c b hc hb
      by_cases hji : j = i
      · subst hji
        obtain ⟨hc2, hclen⟩ := getElem?_set_same _ _ _ _ hc
        obtain ⟨hb2, hblen⟩ := getElem?_set_same _ _ _ _ hb
        rw [hc2, hb2]
        dsimp only
        rw [length_fetch_column R.stmt _ _ j (by rw [length_resize]; omega), length_resize]
      · rw [List.getElem?_set_ne (fun he => hji he.symm)] at hc hb
        exact hinv j c b hc hb
  · rw [if_neg htr] at h
    injection h with h2
    rw [← h2]
    exact hinv

lemma ensure_post (R R2 : MysqlRS) (i : Nat) (hinv : BufInv R)
    (h : _ensureCapacity R i = .ok R2) :
    ∀ (c2 : ColumnT) (b2 : BindT), R2.columns[i]? = some c2 → R2.bind[i]? = some b2 →
      c2.real_length ≤ b2.buffer_length := by
  simp only [_ensureCapacity] at h
  by_cases htr : (R.bind.getD i default).buffer_length
      < (R.columns.getD i default).real_length
  · rw [if_pos htr] at h
    by_cases hfc : (mysql_stmt_fetch_column R.stmt
        { buffer_length := (R.columns.getD i default).real_length }
        (resize (R.columns.getD i default).buffer
          ((R.columns.getD i default).real_length + 1)) i).2.2 ≠ 0
    · rw [if_pos hfc] at h
      exact absurd h (by simp)
    · rw [if_neg hfc] at h
      injection h with h2
      rw [← h2]
      intro c2 b2 hc hb
      obtain ⟨hc2, hclen⟩ := getElem?_set_same _ _ _ _ hc
      obtain ⟨hb2, hblen⟩ := getElem?_set_same _ _ _ _ hb
      rw [hc2, hb2]
  · rw [if_neg htr] at h
    injection h with h2
    rw [← h2]
    intro c2 b2 hc hb
    rw [getD_eq_of_getElem? hc, getD_eq_of_getElem?_bind hb] at htr
    omega

lemma bufInv_getString (R R2 : MysqlRS) (ci : Int) (w : Option (List Nat)) (hinv : BufInv R)
    (h : MysqlResultSet_getString R ci = .ok (R2, w)) : BufInv R2 := by
  unfold MysqlResultSet_getString at h
  cases hidx : checkAndSetColumnIndex ci R.columnCount with
  | error e =>
    rw [hidx] at h
    exact absurd h (by simp)
  | ok i =>
    rw [hidx] at h
    dsimp only at h
    cases hc0 : R.columns[i]? with
    | none =>
      rw [hc0] at h
      exact absurd h (by simp)
    | some c0 =>
      rw [hc0] at h
      dsimp only at h
      by_cases hnull : c0.is_null = true
      · rw [if_pos hnull] at h
        injection h with h2
        rw [← (Prod.mk.inj h2).1]
        exact hinv
      · rw [if_neg hnull] at h
        cases hens : _ensureCapacity R i with
        | error e =>
          rw [hens] at h
          exact absurd h (by simp)
        | ok R1 =>
          rw [hens] at h
          dsimp only at h
          cases hc1 : R1.columns[i]? with
          | none =>
            rw [hc1] at h
            exact absurd h (by simp)
          | some c1 =>
            rw [hc1] at h
            dsimp only at h
            by_cases hlt : c1.real_length < c1.buffer.length
            · rw [if_pos hlt] at h
              injection h with h2
              rw [← (Prod.mk.inj h2).1]
              intro j c b hc hb
              by_cases hji : j = i
              · rw [hji] at hc hb
                obtain ⟨hc2, hclen⟩ := getElem?_set_same _ _ _ _ hc
                have h1 := bufInv_ensure R R1 i hinv hens i c1 b hc1 hb
                rw [hc2]
                dsimp only
                rw [List.length_set]
                exact h1
              · rw [List.getElem?_set_ne (fun he => hji he.symm)] at hc
                exact bufInv_ensure R R1 i hinv hens j c b hc hb
            · rw [if_neg hlt] at h
              exact absurd h (by simp)

lemma bufInv_getBlob (R R2 : MysqlRS) (ci : Int) (p : Option (List Nat × Nat))
    (hinv : BufInv R)
    (h : MysqlResultSet_getBlob R ci = .ok (R2, p)) : BufInv R2 := by
  unfold MysqlResultSet_getBlob at h
  cases hidx : checkAndSetColumnIndex ci R.columnCount with
  | error e =>
    rw [hidx] at h
    exact absurd h (by simp)
  | ok i =>
    rw [hidx] at h
    dsimp only at h
    cases hc0 : R.columns[i]? with
    | none =>
      rw [hc0] at h
      exact absurd h (by simp)
    | some c0 =>
      rw [hc0] at h
      dsimp only at h
      by_cases hnull : c0.is_null = true
      · rw [if_pos hnull] at h
        injection h with h2
        rw [← (Prod.mk.inj h2).1]
        exact hinv
      · rw [if_neg hnull] at h
        cases hens : _ensureCapacity R i with
        | error e =>
          rw [hens] at h
          exact absurd h (by simp)
        | ok R1 =>
          rw [hens] at h
          dsimp only at h
          cases hc1 : R1.columns[i]? with
          | none =>
            rw [hc1] at h
            exact absurd h (by simp)
          | some c1 =>
            rw [hc1] at h
            injection h with h2
            rw [← (Prod.mk.inj h2).1]
            exact bufInv_ensure R R1 i hinv hens

lemma bufInv_next (R R2 : MysqlRS) (bb : Bool) (hinv : BufInv R)
    (h : MysqlResultSet_next R = .ok (R2, bb)) : BufInv R2 := by
  unfold MysqlResultSet_next at h
  by_cases hstop : R.stop = true
  · rw [if_pos hstop] at h
    injection h with h2
    rw [← (Prod.mk.inj h2).1]
    exact hinv
  · rw [if_neg hstop] at h
    dsimp only at h
    by_cases hm : R.maxRows ≠ 0
    · rw [if_pos hm] at h
      by_cases hlim : R.maxRows ≠ 0 ∧ R.maxRows ≤ R.currentRow
      · rw [if_pos hlim] at h
        injection h with h2
        rw [← (Prod.mk.inj h2).1]
        exact hinv
      · rw [if_neg hlim] at h
        by_cases hreb : R.needRebind = true
        · rw [if_pos hreb] at h
          simp only [mysql_stmt_bind_result] at h
          by_cases hbf : R.stmt.bindResultFails = true
          · rw [if_pos hbf] at h
            rw [if_pos (by omega)] at h
            exact absurd h (by simp)
          · rw [if_neg hbf] at h
            rw [if_neg (by omega)] at h
            refine bufInv_doFetch _ R2 bb ?_ h
            exact fun i c b hc hb => hinv i c b hc hb
        · rw [if_neg hreb] at h
          refine bufInv_doFetch _ R2 bb ?_ h
          exact fun i c b hc hb => hinv i c b hc hb
    · rw [if_neg hm] at h
      by_cases hlim : R.maxRows ≠ 0 ∧ R.maxRows ≤ R.currentRow
      · rw [if_pos hlim] at h
        injection h with h2
        rw [← (Prod.mk.inj h2).1]
        exact hinv
      · rw [if_neg hlim] at h
        by_cases hreb : R.needRebind = true
        · rw [if_pos hreb] at h
          simp only [mysql_stmt_bind_result] at h
          by_cases hbf : R.stmt.bindResultFails = true
          · rw [if_pos hbf] at h
            rw [if_pos (by omega)] at h
            exact absurd h (by simp)
          · rw [if_neg hbf] at h
            rw [if_neg (by omega)] at h
            refine bufInv_doFetch _ R2 bb ?_ h
            exact fun i c b hc hb => hinv i c b hc hb
        · rw [if_neg hreb] at h
          refine bufInv_doFetch _ R2 bb ?_ h
          exact fun i c b hc hb => hinv i c b hc hb

lemma bufInv_reach (R : MysqlRS) (h : Reach R) : BufInv R := by
  induction h with
  | new s m k => exact bufInv_new s m k
  | next R R2 bb _ heq ih => exact bufInv_next R R2 bb ih heq
  | getString R ci R2 w _ heq ih => exact bufInv_getString R R2 ci w ih heq
  | getBlob R ci R2 p _ heq ih => exact bufInv_getBlob R R2 ci p ih heq

/-- C10: in every reachable cursor state, each column's allocated buffer is at
least one byte larger than the capacity registered with the engine for that
column (initially `STRLEN + 1` allocated vs `STRLEN` registered; after a
resize `declaredLength + 1` vs `declaredLength`); consequently, after
`_ensureCapacity` resolves truncation for a column, its declared length is
strictly below its allocation, so the terminator write `getString` performs at
offset `real_length` is always within the allocation. -/
theorem C10_allocation_invariant (R : MysqlRS) (hR : Reach R) :
    (∀ (i : Nat) (c : ColumnT) (b : BindT),
      R.columns[i]? = some c → R.bind[i]? = some b →
      b.buffer_length + 1 ≤ c.buffer.length)
    ∧ (∀ (i : Nat) (R2 : MysqlRS) (c2 : ColumnT) (b2 : BindT),
      _ensureCapacity R i = .ok R2 →
      R2.columns[i]? = some c2 → R2.bind[i]? = some b2 →
      c2.real_length < c2.buffer.length) := by
  have hinv := bufInv_reach R hR
  constructor
  · intro i c b hc hb
    rw [hinv i c b hc hb]
  · intro i R2 c2 b2 hens hc hb
    have hle := ensure_post R R2 i hinv hens c2 b2 hc hb
    have hinv2 := bufInv_ensure R R2 i hinv hens
    have := hinv2 i c2 b2 hc hb
    omega

/-- Witness for C10 at a freshly constructed cursor: its column 1 descriptor
has a 257-byte allocation against the registered capacity `STRLEN` = 256, and
running `_ensureCapacity` on it keeps the declared length inside the
allocation. -/
theorem C10_allocation_invariant_witness :
    ({ buffer_length := STRLEN } : BindT).buffer_length + 1
      ≤ ({ is_null := false, fieldName := "a", real_length := 0,
           buffer := List.replicate (STRLEN + 1) 0 } : ColumnT).buffer.length
    ∧ ({ is_null := false, fieldName := "a", real_length := 0,
         buffer := List.replicate (STRLEN + 1) 0 } : ColumnT).real_length
      < ({ is_null := false, fieldName := "a", real_length := 0,
           buffer := List.replicate (STRLEN + 1) 0 } : ColumnT).buffer.length :=
  ⟨(C10_allocation_invariant _ (Reach.new c2Stmt 0 false)).1 0
      { is_null := false, fieldName := "a", real_length := 0,
        buffer := List.replicate (STRLEN + 1) 0 }
      { buffer_length := STRLEN } (by rfl) (by rfl),
   (C10_allocation_invariant _ (Reach.new c2Stmt 0 false)).2 0
      (MysqlResultSet_new c2Stmt 0 false)
      { is_null := false, fieldName := "a", real_length := 0,
        buffer := List.replicate (STRLEN + 1) 0 }
      { buffer_length := STRLEN } (by rfl) (by rfl) (by rfl)⟩
